import Mathlib

/-!
Shallow embedding of `src/HomeSenseBasicFirmware.ino`: an ESP8266 sketch that
reads a DHT12 humidity/temperature sensor and an MS5637 pressure/temperature
sensor and publishes the readings over MQTT on a fixed timer.

Machine integers (`unsigned long` = 32 bits on the ESP8266) are modelled as
`Nat` with explicit `% 2 ^ 32` where the source overflows; `float` sensor
values are idealised as `ℚ`; side effects (MQTT publishes/subscribes, sensor
accesses) are modelled as an explicit event trace; the shared `char msg[75]`
buffer is threaded explicitly through the report cycle.
-/

namespace HomeSense

/-! ### Configuration constants (lines 20-36 of the sketch) -/

/-- `int reporting_interval = 5;` (seconds). -/
def reporting_interval : Nat := 5

/-- `unsigned long` wraps modulo `2 ^ 32` on the ESP8266. -/
def W : Nat := 2 ^ 32

/-- The four calibration offsets (`humidity_adjustment`, `temperature_adjustment`,
`pressure_adjustment`, `temperature_2_adjustment`), kept as parameters so the
report cycle can be stated for every offset value; the sketch's compiled-in
values are `sourceAdjustments`. -/
structure Adjustments where
  humidity_adjustment : ℚ
  temperature_adjustment : ℚ
  pressure_adjustment : ℚ
  temperature_2_adjustment : ℚ

/-- The values compiled into the sketch (lines 30-33). -/
def sourceAdjustments : Adjustments :=
  { humidity_adjustment := 0
    temperature_adjustment := -3
    pressure_adjustment := 0
    temperature_2_adjustment := -3 }

/-! ### Device identity and topic strings (setup, lines 59-70; reconnect, line 140) -/

/-- `sprintf` with `%x`: lowercase hexadecimal, no leading-zero padding
(`Nat.toDigits 16` uses the digit characters `0`-`9`, `a`-`f`). -/
def hexString (n : Nat) : String := (Nat.toDigits 16 n).asString

def humidity_topic (chipId : Nat) : String :=
  "device/" ++ hexString chipId ++ "/humidity"

def temperature_topic (chipId : Nat) : String :=
  "device/" ++ hexString chipId ++ "/temperature"

def pressure_topic (chipId : Nat) : String :=
  "device/" ++ hexString chipId ++ "/pressure"

def temperature_2_topic (chipId : Nat) : String :=
  "device/" ++ hexString chipId ++ "/temperature2"

def command_topic (chipId : Nat) : String :=
  "device/" ++ hexString chipId ++ "/command"

/-- `sprintf(mqtt_client_id, "esp8266-%x", ESP.getChipId());` (line 140). -/
def mqtt_client_id (chipId : Nat) : String := "esp8266-" ++ hexString chipId

/-- `sprintf(msg, "Device %s starting up", mqtt_client_id);` (line 149). -/
def startup_announcement (chipId : Nat) : String :=
  "Device " ++ mqtt_client_id chipId ++ " starting up"

/-! ### `dtostrf`: fixed-point decimal formatting of a float -/

/-- Truncation of a nonnegative rational to a natural number
(the integer part `⌊q⌋` for `q ≥ 0`). -/
def qTruncNN (q : ℚ) : Nat := q.num.toNat / q.den

/-- Exactly `prec` decimal digits of `n`, zero padded, most significant first. -/
def padDigits : Nat → Nat → List Char
  | 0, _ => []
  | p + 1, n => padDigits p (n / 10) ++ [Nat.digitChar (n % 10)]

/-- The absolute value of a rational, phrased on the numerator so that it
reduces by computation (`q.num < 0 ↔ q < 0` since the denominator is positive). -/
def qAbs (q : ℚ) : ℚ := if q.num < 0 then -q else q

/-- The value scaled to an integer count of `10 ^ prec`-ths, rounding half up
on the magnitude (as avr-libc `dtostrf` does). -/
def scaledVal (val : ℚ) (prec : Nat) : Nat :=
  qTruncNN (qAbs val * (10 : ℚ) ^ prec + 1 / 2)

/-- The sign prefix, phrased on the numerator (`val.num < 0 ↔ val < 0`). -/
def signStr (val : ℚ) : String := if val.num < 0 then "-" else ""

/-- Right justification to a minimum field width, space padded. -/
def padLeft (width : Nat) (s : String) : String :=
  String.mk (List.replicate (width - s.length) ' ') ++ s

/-- `dtostrf(val, width, prec, buf)`: fixed-point decimal text with `prec`
digits after the decimal point, right justified to a minimum width. -/
def dtostrf (val : ℚ) (width prec : Nat) : String :=
  padLeft width
    (signStr val ++ Nat.repr (scaledVal val prec / 10 ^ prec) ++ "." ++
      String.mk (padDigits prec (scaledVal val prec % 10 ^ prec)))

/-! ### Observable actions of the firmware -/

/-- One observable action: an MQTT publish or subscribe, a connect attempt,
an MQTT service call (`client.loop()`), a DHT12 read (`dht12.get()`), the
barometer health check (`BaroSensor.isOK()`), or a barometer
reinitialisation (`BaroSensor.begin()`). -/
inductive Event where
  | publish (topic payload : String)
  | subscribe (topic : String)
  | connectAttempt (ok : Bool)
  | poll
  | sensorReadDHT
  | baroHealthCheck
  | baroReinit
  deriving DecidableEq

/-- The values the two sensors would deliver in one cycle:
`dht12.get()` status (0 = success), `dht12.cTemp`, `dht12.humidity`,
`BaroSensor.isOK()`, `BaroSensor.getPressure()`, `BaroSensor.getTemperature()`. -/
structure SensorInputs where
  dhtStatus : Nat
  cTemp : ℚ
  humidity : ℚ
  baroOK : Bool
  pressure : ℚ
  temperature : ℚ

/-! ### The report cycle (loop body, lines 181-215) -/

/-- Lines 182-195: `if (dht12.get() == 0) { ... }`. The shared `msg` buffer is
threaded: each `dtostrf` overwrites it and each publish sends its current
contents. Returns the events emitted after the read and the final buffer. -/
def dhtPart (adj : Adjustments) (chipId : Nat) (s : SensorInputs) (msg : String) :
    List Event × String :=
  if s.dhtStatus = 0 then
    let msg1 := dtostrf (s.cTemp + adj.temperature_adjustment) 4 2
    let e1 := Event.publish (temperature_topic chipId) msg1
    let msg2 := dtostrf (s.humidity + adj.humidity_adjustment) 4 2
    let e2 := Event.publish (humidity_topic chipId) msg2
    ([e1, e2], msg2)
  else
    ([], msg)

/-- Lines 197-215: `if (!BaroSensor.isOK()) { ... BaroSensor.begin(); } else { ... }`. -/
def baroPart (adj : Adjustments) (chipId : Nat) (s : SensorInputs) (msg : String) :
    List Event × String :=
  if s.baroOK = false then
    ([Event.baroReinit], msg)
  else
    let msg1 := dtostrf (s.pressure + adj.pressure_adjustment) 6 2
    let e1 := Event.publish (pressure_topic chipId) msg1
    let msg2 := dtostrf (s.temperature + adj.temperature_2_adjustment) 4 2
    let e2 := Event.publish (temperature_2_topic chipId) msg2
    ([e1, e2], msg2)

/-- One full report cycle: the DHT12 read, its branch, the barometer health
check, its branch; the `msg` buffer threads through in program order. -/
def reportCycle (adj : Adjustments) (chipId : Nat) (s : SensorInputs) (msg : String) :
    List Event × String :=
  let r1 := dhtPart adj chipId s msg
  let r2 := baroPart adj chipId s r1.2
  (Event.sensorReadDHT :: r1.1 ++ Event.baroHealthCheck :: r2.1, r2.2)

/-! ### The reporting timer (lines 21-22, 176-179) -/

/-- `if (time_now >= next_report_time)`. -/
def timerDue (time_now next_report_time : Nat) : Bool :=
  decide (next_report_time ≤ time_now)

/-- `next_report_time = time_now + (reporting_interval * 1000);` in 32-bit
unsigned arithmetic. -/
def nextDueAfterFire (time_now : Nat) : Nat :=
  (time_now + reporting_interval * 1000) % W

/-- The timer logic alone, run over a list of clock values at which the loop
body executes: returns the clock values at which a report cycle fires. -/
def runTimer : List Nat → Nat → List Nat
  | [], _ => []
  | t :: ts, due =>
    if timerDue t due then t :: runTimer ts (nextDueAfterFire t) else runTimer ts due

/-- Modelled from the spec: the spec's §8 cadence property says the timer
"advances from its previous due time, not from now"; this variant implements
those words (`due + interval` on firing) for comparison with `runTimer`,
which implements the source (`time_now + interval`). -/
def runTimerSpecAdvance : List Nat → Nat → List Nat
  | [], _ => []
  | t :: ts, due =>
    if timerDue t due then
      t :: runTimerSpecAdvance ts (due + reporting_interval * 1000)
    else
      runTimerSpecAdvance ts due

/-- The clock values `base, base + step, ..., base + (n-1) * step`. -/
def multiples (step : Nat) : Nat → Nat → List Nat
  | 0, _ => []
  | n + 1, base => base :: multiples step n (base + step)

/-! ### Reconnection (lines 138-161) and the main loop (lines 167-216) -/

/-- `reconnect()`: spin until a connect attempt succeeds; on success publish
the startup announcement (via the shared `msg` buffer) to the fixed topic
`"events"` and subscribe to the command topic. The outcome of each successive
`client.connect` attempt is supplied as a list; if it is exhausted without a
success the device is still spinning (third component `false`). Returns the
emitted events, the final `msg` buffer, and whether the client is connected. -/
def reconnect (chipId : Nat) : List Bool → String → List Event × String × Bool
  | [], msg => ([], msg, false)
  | ok :: rest, msg =>
    if ok then
      ([Event.connectAttempt true,
        Event.publish "events" (startup_announcement chipId),
        Event.subscribe (command_topic chipId)],
       startup_announcement chipId, true)
    else
      let r := reconnect chipId rest msg
      (Event.connectAttempt false :: r.1, r.2)

/-- The mutable globals one `loop()` iteration reads and writes. -/
structure LoopState where
  connected : Bool
  next_report_time : Nat
  msg : String

/-- One iteration of `loop()`: ensure connection (blocking `reconnect` if the
client reports disconnected), service MQTT (`client.loop()`), then the timer
check and, when due, the report cycle. `attempts` supplies the connect
outcomes consumed by `reconnect`, `time_now` is the `millis()` sample, and
`s` the sensor values. Returns the event trace and the updated state. -/
def loop (adj : Adjustments) (chipId : Nat) (st : LoopState) (attempts : List Bool)
    (time_now : Nat) (s : SensorInputs) : List Event × LoopState :=
  let r0 :=
    if st.connected then ([], st.msg, true) else reconnect chipId attempts st.msg
  if r0.2.2 then
    if timerDue time_now st.next_report_time then
      let rc := reportCycle adj chipId s r0.2.1
      (r0.1 ++ Event.poll :: rc.1,
       { connected := true, next_report_time := nextDueAfterFire time_now, msg := rc.2 })
    else
      (r0.1 ++ [Event.poll],
       { connected := true, next_report_time := st.next_report_time, msg := r0.2.1 })
  else
    (r0.1, { connected := false, next_report_time := st.next_report_time, msg := r0.2.1 })

/-- The topics of the publish events of a trace, in order. -/
def publishedTopics (evs : List Event) : List String :=
  evs.filterMap fun e =>
    match e with
    | Event.publish t _ => some t
    | _ => none

def isDHTRead : Event → Bool
  | Event.sensorReadDHT => true
  | _ => false

def isReinit : Event → Bool
  | Event.baroReinit => true
  | _ => false

/-- How many DHT12 reads a trace contains. -/
def countDHTReads (evs : List Event) : Nat := (evs.filter isDHTRead).length

/-- How many barometer reinitialisations a trace contains. -/
def countReinits (evs : List Event) : Nat := (evs.filter isReinit).length

/-- A sample healthy sensor snapshot (21.5 °C, 60 % RH, 1013.25 mbar, 25 °C)
used to instantiate the universally quantified theorems. -/
def sampleInputs : SensorInputs :=
  { dhtStatus := 0
    cTemp := 43 / 2
    humidity := 60
    baroOK := true
    pressure := 4053 / 4
    temperature := 25 }

/-- A sample snapshot in which the DHT12 read fails (CRC error, status 2)
and the barometer reports unhealthy. -/
def sampleFailInputs : SensorInputs :=
  { dhtStatus := 2
    cTemp := 0
    humidity := 0
    baroOK := false
    pressure := 0
    temperature := 0 }

/-- A disconnected loop state with the timer at its boot value. -/
def sampleState : LoopState :=
  { connected := false, next_report_time := 0, msg := "" }

/-- A connected loop state with the timer at its boot value. -/
def connectedState : LoopState :=
  { connected := true, next_report_time := 0, msg := "" }

end HomeSense

namespace HomeSense

/-! ### Helper lemmas -/

theorem strDataEq (s t : String) (h : s.data = t.data) : s = t := by
  cases s; cases t; exact congrArg String.mk h

theorem dataAppend (s t : String) : (s ++ t).data = s.data ++ t.data := rfl

/-- Two topics that share the `device/{id}` prefix agree only if their
suffixes agree. -/
theorem topic_suffix_inj (h s1 s2 : String)
    (heq : "device/" ++ h ++ s1 = "device/" ++ h ++ s2) : s1 = s2 := by
  have hd := congrArg String.data heq
  simp only [dataAppend] at hd
  exact strDataEq _ _ (List.append_inj_right hd rfl)

theorem topics_ne (chipId : Nat) (s1 s2 : String) (hne : s1 ≠ s2) :
    "device/" ++ hexString chipId ++ s1 ≠ "device/" ++ hexString chipId ++ s2 :=
  fun heq => hne (topic_suffix_inj (hexString chipId) s1 s2 heq)

/-- Unrolling `reconnect` over `k` failed attempts followed by a success. -/
theorem reconnect_replicate (chipId k : Nat) (rest : List Bool) (msg : String) :
    reconnect chipId (List.replicate k false ++ true :: rest) msg =
      (List.replicate k (Event.connectAttempt false) ++
        [Event.connectAttempt true,
         Event.publish "events" (startup_announcement chipId),
         Event.subscribe (command_topic chipId)],
       startup_announcement chipId, true) := by
  induction k with
  | zero => rfl
  | succ n ih => simp [List.replicate_succ, reconnect, ih]

/-- When the loop body runs exactly at the due instants
`base, base + step, ...`, every instant fires. -/
theorem runTimer_multiples (n : Nat) : ∀ base,
    base + n * (reporting_interval * 1000) < W →
    runTimer (multiples (reporting_interval * 1000) n base) base =
      multiples (reporting_interval * 1000) n base := by
  have hI : (reporting_interval * 1000 : Nat) = 5000 := rfl
  have hW : W = 4294967296 := rfl
  induction n with
  | zero => intro base _; rfl
  | succ m ih =>
    intro base h
    rw [hI, hW] at h
    have h1 : base + reporting_interval * 1000 < W := by rw [hI, hW]; omega
    have hdue : timerDue base base = true := by simp [timerDue]
    have hnext : nextDueAfterFire base = base + reporting_interval * 1000 := by
      simp [nextDueAfterFire, Nat.mod_eq_of_lt h1]
    have hrec : (base + reporting_interval * 1000) + m * (reporting_interval * 1000) < W := by
      rw [hI, hW]; omega
    simp [multiples, runTimer, hdue, hnext, ih _ hrec]

theorem padLeft_dot_shift (w : Nat) (x f : String) :
    padLeft w (x ++ "." ++ f) =
      (String.mk (List.replicate (w - (x ++ "." ++ f).length) ' ') ++ x) ++ ("." ++ f) := by
  rw [padLeft]
  apply strDataEq
  simp [dataAppend, List.append_assoc]

/-- A value formatted by `dtostrf` with precision 2 has exactly two digit
characters after the decimal point. -/
theorem dtostrf_decimals (q : ℚ) (w : Nat) :
    ∃ pre : String, ∃ a b : Char, dtostrf q w 2 = pre ++ ("." ++ String.mk [a, b]) :=
  ⟨String.mk (List.replicate (w - (signStr q ++ Nat.repr (scaledVal q 2 / 10 ^ 2) ++ "." ++
        String.mk (padDigits 2 (scaledVal q 2 % 10 ^ 2))).length) ' ') ++
      (signStr q ++ Nat.repr (scaledVal q 2 / 10 ^ 2)),
    Nat.digitChar (scaledVal q 2 % 10 ^ 2 / 10 % 10),
    Nat.digitChar (scaledVal q 2 % 10 ^ 2 % 10),
    padLeft_dot_shift w (signStr q ++ Nat.repr (scaledVal q 2 / 10 ^ 2))
      (String.mk (padDigits 2 (scaledVal q 2 % 10 ^ 2)))⟩

/-! ### The claims -/

/-- C6: the five topic strings are deterministic functions of the device
identity rendered as lowercase hex without leading-zero padding; for identity
`a1b2` (chip id 41394) they are exactly `device/a1b2/humidity`,
`device/a1b2/temperature`, `device/a1b2/pressure`, `device/a1b2/temperature2`
and `device/a1b2/command`. -/
theorem c6_topic_strings :
    hexString 41394 = "a1b2" ∧
    humidity_topic 41394 = "device/a1b2/humidity" ∧
    temperature_topic 41394 = "device/a1b2/temperature" ∧
    pressure_topic 41394 = "device/a1b2/pressure" ∧
    temperature_2_topic 41394 = "device/a1b2/temperature2" ∧
    command_topic 41394 = "device/a1b2/command" :=
  ⟨by decide, by decide, by decide, by decide, by decide, by decide⟩

/-- C7: the MQTT client identifier is exactly `esp8266-{id}` with the identity
in lowercase hex, and every successful connect publishes exactly
`Device esp8266-{id} starting up` to the fixed `events` topic. -/
theorem c7_client_id_and_announcement (chipId k : Nat) (rest : List Bool) (msg : String) :
    mqtt_client_id chipId = "esp8266-" ++ hexString chipId ∧
    (reconnect chipId (List.replicate k false ++ true :: rest) msg).1 =
      List.replicate k (Event.connectAttempt false) ++
        [Event.connectAttempt true,
         Event.publish "events" ("Device " ++ mqtt_client_id chipId ++ " starting up"),
         Event.subscribe (command_topic chipId)] ∧
    mqtt_client_id 41394 = "esp8266-a1b2" ∧
    startup_announcement 41394 = "Device esp8266-a1b2 starting up" :=
  ⟨rfl, by rw [reconnect_replicate]; rfl, by decide, by decide⟩

/-- C1 counterexample: the claim says the timer is advanced from its previous
due time, making reports fire at 0, 5000, 10000, ... ms independent of cycle
duration. On the code, a fire at t = 6000 (previous due time 5000) sets the
next due time to 11000 = now + interval, not 10000 = previous due + interval;
over loop iterations at 0, 6000, 7000, ..., 11000 ms the code reports at
0, 6000 and 11000 — no report fires at t = 10000 ms = 10 s, and 11000 is not a
multiple of the interval — whereas the advance-from-due rule stated by the
claim would report at 0, 6000 and 10000. -/
theorem c1_counterexample :
    runTimer [0, 6000, 7000, 8000, 9000, 10000, 11000] 0 = [0, 6000, 11000] ∧
    runTimerSpecAdvance [0, 6000, 7000, 8000, 9000, 10000, 11000] 0 = [0, 6000, 10000] ∧
    nextDueAfterFire 6000 = 6000 + reporting_interval * 1000 ∧
    nextDueAfterFire 6000 ≠ 5000 + reporting_interval * 1000 :=
  ⟨by decide, by decide, by decide, by decide⟩

/-- C1 (amended): with reporting interval 5 s and a clock starting at 0 the
first report fires at t = 0 (the timer is initialized to 0 and due
immediately); when the timer fires at clock value t the next due time is set
to t + 5000 ms — advanced from the current time, not from the previous due
time — so reports fire at t = 0, 5, 10, ... s exactly when each firing loop
iteration runs at its due instant; an iteration delayed past its due instant
(for example by long sensor reads or publishes) shifts all later due times by
the delay. -/
theorem c1_cadence (n : Nat) (h : n * (reporting_interval * 1000) < W) :
    runTimer (multiples (reporting_interval * 1000) n 0) 0 =
      multiples (reporting_interval * 1000) n 0 ∧
    ∀ t, t + reporting_interval * 1000 < W →
      nextDueAfterFire t = t + reporting_interval * 1000 :=
  ⟨runTimer_multiples n 0 (by simpa using h),
   fun t ht => by simp [nextDueAfterFire, Nat.mod_eq_of_lt ht]⟩

/-- Witness for the amended C1 at n = 3: iterations at 0, 5000, 10000 ms all
fire. -/
theorem c1_cadence_witness :
    3 * (reporting_interval * 1000) < W ∧
    runTimer (multiples (reporting_interval * 1000) 3 0) 0 =
      multiples (reporting_interval * 1000) 3 0 :=
  ⟨by decide, (c1_cadence 3 (by decide)).1⟩

/-- C10: the next due time is `(t + 5000) mod 2^32` and the due check is the
plain comparison `t ≥ due`; for every clock value within 5000 ms of `2^32`
the computed due time wraps to a value below 5000, so (whenever at least one
more millisecond remains before the clock itself wraps) the very next
iteration is already due — the report fires 1 ms after the previous one
instead of 5000 ms. -/
theorem c10_wraparound (t : Nat) (h1 : t < W) (h2 : W ≤ t + reporting_interval * 1000) :
    nextDueAfterFire t = t + reporting_interval * 1000 - W ∧
    nextDueAfterFire t < reporting_interval * 1000 ∧
    (t + 1 < W → timerDue (t + 1) (nextDueAfterFire t) = true ∧
      t + 1 < t + reporting_interval * 1000) := by
  have hI : (reporting_interval * 1000 : Nat) = 5000 := rfl
  have hW : W = 4294967296 := rfl
  have h1n : t < 4294967296 := hW ▸ h1
  have h2n : 4294967296 ≤ t + 5000 := by rw [hI, hW] at h2; exact h2
  have hmod : nextDueAfterFire t = t + reporting_interval * 1000 - W := by
    rw [nextDueAfterFire, hI, hW]
    rw [Nat.mod_eq_sub_mod h2n, Nat.mod_eq_of_lt (by omega)]
  refine ⟨hmod, ?_, fun h3 => ⟨?_, by rw [hI]; omega⟩⟩
  · rw [hmod, hI, hW]; omega
  · rw [hW] at h3
    rw [timerDue, hmod, hI, hW]
    simp only [decide_eq_true_eq]
    omega

/-- Witness for C10 at t = 2^32 - 1000: the next due time wraps to 4000. -/
theorem c10_wraparound_witness :
    (4294966296 < W ∧ W ≤ 4294966296 + reporting_interval * 1000) ∧
    nextDueAfterFire 4294966296 = 4294966296 + reporting_interval * 1000 - W :=
  ⟨⟨by decide, by decide⟩, (c10_wraparound 4294966296 (by decide) (by decide)).1⟩

/-- C2: for every calibration offset and every raw reading on each of the
four channels, the published payload is the raw value plus that channel's
offset, formatted by `dtostrf` with 2 decimal places — the field widths (4
for temperature, humidity, temperature2; 6 for pressure) are the only
difference between channels — and every such payload has exactly two digit
characters after the decimal point. -/
theorem c2_adjusted_and_formatted (adj : Adjustments) (chipId : Nat) (s : SensorInputs)
    (msg : String) (hd : s.dhtStatus = 0) (hb : s.baroOK = true) :
    (reportCycle adj chipId s msg).1 =
      [Event.sensorReadDHT,
       Event.publish (temperature_topic chipId)
         (dtostrf (s.cTemp + adj.temperature_adjustment) 4 2),
       Event.publish (humidity_topic chipId)
         (dtostrf (s.humidity + adj.humidity_adjustment) 4 2),
       Event.baroHealthCheck,
       Event.publish (pressure_topic chipId)
         (dtostrf (s.pressure + adj.pressure_adjustment) 6 2),
       Event.publish (temperature_2_topic chipId)
         (dtostrf (s.temperature + adj.temperature_2_adjustment) 4 2)] ∧
    ∀ q : ℚ, ∀ w : Nat, ∃ pre : String, ∃ a b : Char,
      dtostrf q w 2 = pre ++ ("." ++ String.mk [a, b]) := by
  refine ⟨?_, fun q w => dtostrf_decimals q w⟩
  simp [reportCycle, dhtPart, baroPart, hd, hb]

/-- Witness for C2 with the sketch's compiled-in offsets and a healthy sample
reading. -/
theorem c2_witness :
    (sampleInputs.dhtStatus = 0 ∧ sampleInputs.baroOK = true) ∧
    (reportCycle sourceAdjustments 41394 sampleInputs "").1 =
      [Event.sensorReadDHT,
       Event.publish (temperature_topic 41394)
         (dtostrf (sampleInputs.cTemp + sourceAdjustments.temperature_adjustment) 4 2),
       Event.publish (humidity_topic 41394)
         (dtostrf (sampleInputs.humidity + sourceAdjustments.humidity_adjustment) 4 2),
       Event.baroHealthCheck,
       Event.publish (pressure_topic 41394)
         (dtostrf (sampleInputs.pressure + sourceAdjustments.pressure_adjustment) 6 2),
       Event.publish (temperature_2_topic 41394)
         (dtostrf (sampleInputs.temperature + sourceAdjustments.temperature_2_adjustment) 4 2)] :=
  ⟨⟨rfl, rfl⟩, (c2_adjusted_and_formatted sourceAdjustments 41394 sampleInputs "" rfl rfl).1⟩

/-- C3: when the DHT12 read reports failure (nonzero status), the cycle
publishes nothing on the temperature and humidity channels, reads the DHT12
exactly once (no retry), and the barometer branch behaves exactly as it would
otherwise (its events do not depend on the buffer contents it inherits). -/
theorem c3_dht_failure (adj : Adjustments) (chipId : Nat) (s : SensorInputs)
    (msg : String) (hd : s.dhtStatus ≠ 0) :
    (reportCycle adj chipId s msg).1 =
      Event.sensorReadDHT :: Event.baroHealthCheck :: (baroPart adj chipId s msg).1 ∧
    countDHTReads (reportCycle adj chipId s msg).1 = 1 ∧
    (∀ p : String,
      Event.publish (temperature_topic chipId) p ∉ (reportCycle adj chipId s msg).1 ∧
      Event.publish (humidity_topic chipId) p ∉ (reportCycle adj chipId s msg).1) ∧
    (∀ m1 m2 : String, (baroPart adj chipId s m1).1 = (baroPart adj chipId s m2).1) := by
  have ne1 : temperature_topic chipId ≠ pressure_topic chipId :=
    topics_ne chipId "/temperature" "/pressure" (by decide)
  have ne2 : temperature_topic chipId ≠ temperature_2_topic chipId :=
    topics_ne chipId "/temperature" "/temperature2" (by decide)
  have ne3 : humidity_topic chipId ≠ pressure_topic chipId :=
    topics_ne chipId "/humidity" "/pressure" (by decide)
  have ne4 : humidity_topic chipId ≠ temperature_2_topic chipId :=
    topics_ne chipId "/humidity" "/temperature2" (by decide)
  refine ⟨?_, ?_, ?_, ?_⟩
  · simp [reportCycle, dhtPart, hd]
  · cases hb : s.baroOK with
    | false => simp [reportCycle, dhtPart, baroPart, hd, hb, countDHTReads, isDHTRead]
    | true => simp [reportCycle, dhtPart, baroPart, hd, hb, countDHTReads, isDHTRead]
  · intro p
    cases hb : s.baroOK with
    | false => constructor <;> simp [reportCycle, dhtPart, baroPart, hd, hb]
    | true => constructor <;> simp [reportCycle, dhtPart, baroPart, hd, hb, ne1, ne2, ne3, ne4]
  · intro m1 m2
    cases hb : s.baroOK with
    | false => simp [baroPart, hb]
    | true => simp [baroPart, hb]

/-- Witness for C3 with a failing DHT12 read. -/
theorem c3_witness :
    sampleFailInputs.dhtStatus ≠ 0 ∧
    (reportCycle sourceAdjustments 41394 sampleFailInputs "").1 =
      Event.sensorReadDHT :: Event.baroHealthCheck ::
        (baroPart sourceAdjustments 41394 sampleFailInputs "").1 ∧
    countDHTReads (reportCycle sourceAdjustments 41394 sampleFailInputs "").1 = 1 :=
  ⟨by decide,
   (c3_dht_failure sourceAdjustments 41394 sampleFailInputs "" (by decide)).1,
   (c3_dht_failure sourceAdjustments 41394 sampleFailInputs "" (by decide)).2.1⟩

/-- C4: a cycle in which the barometer health check reports unhealthy
attempts exactly one reinitialisation and publishes nothing on the pressure
and temperature2 channels; any cycle in which the check reports healthy
reads, adjusts and publishes both of those channels normally. -/
theorem c4_baro_unhealthy (adj : Adjustments) (chipId : Nat) (s s2 : SensorInputs)
    (msg msg2 : String) (hu : s.baroOK = false) (hh : s2.baroOK = true) :
    countReinits (reportCycle adj chipId s msg).1 = 1 ∧
    (∀ p : String,
      Event.publish (pressure_topic chipId) p ∉ (reportCycle adj chipId s msg).1 ∧
      Event.publish (temperature_2_topic chipId) p ∉ (reportCycle adj chipId s msg).1) ∧
    (baroPart adj chipId s2 msg2).1 =
      [Event.publish (pressure_topic chipId)
         (dtostrf (s2.pressure + adj.pressure_adjustment) 6 2),
       Event.publish (temperature_2_topic chipId)
         (dtostrf (s2.temperature + adj.temperature_2_adjustment) 4 2)] := by
  have ne1 : pressure_topic chipId ≠ temperature_topic chipId :=
    topics_ne chipId "/pressure" "/temperature" (by decide)
  have ne2 : pressure_topic chipId ≠ humidity_topic chipId :=
    topics_ne chipId "/pressure" "/humidity" (by decide)
  have ne3 : temperature_2_topic chipId ≠ temperature_topic chipId :=
    topics_ne chipId "/temperature2" "/temperature" (by decide)
  have ne4 : temperature_2_topic chipId ≠ humidity_topic chipId :=
    topics_ne chipId "/temperature2" "/humidity" (by decide)
  refine ⟨?_, ?_, ?_⟩
  · by_cases hds : s.dhtStatus = 0 <;>
      simp [reportCycle, dhtPart, baroPart, hu, hds, countReinits, isReinit]
  · intro p
    by_cases hds : s.dhtStatus = 0 <;>
      (constructor <;> simp [reportCycle, dhtPart, baroPart, hu, hds, ne1, ne2, ne3, ne4])
  · simp [baroPart, hh]

/-- Witness for C4: unhealthy sample cycle and healthy sample cycle. -/
theorem c4_witness :
    (sampleFailInputs.baroOK = false ∧ sampleInputs.baroOK = true) ∧
    countReinits (reportCycle sourceAdjustments 41394 sampleFailInputs "").1 = 1 ∧
    (baroPart sourceAdjustments 41394 sampleInputs "").1 =
      [Event.publish (pressure_topic 41394)
         (dtostrf (sampleInputs.pressure + sourceAdjustments.pressure_adjustment) 6 2),
       Event.publish (temperature_2_topic 41394)
         (dtostrf (sampleInputs.temperature + sourceAdjustments.temperature_2_adjustment) 4 2)] :=
  ⟨⟨rfl, rfl⟩,
   (c4_baro_unhealthy sourceAdjustments 41394 sampleFailInputs sampleInputs "" "" rfl rfl).1,
   (c4_baro_unhealthy sourceAdjustments 41394 sampleFailInputs sampleInputs "" "" rfl rfl).2.2⟩

/-- C8: within one cycle the publications that occur happen in the fixed
order temperature, humidity, pressure, temperature2, and each publish carries
exactly the value formatted into the shared buffer immediately before it —
the initial buffer contents `msg` never reach any publish. -/
theorem c8_order_and_fresh_payloads (adj : Adjustments) (chipId : Nat) (s : SensorInputs)
    (msg : String) :
    (reportCycle adj chipId s msg).1 =
      Event.sensorReadDHT ::
        (if s.dhtStatus = 0 then
          [Event.publish (temperature_topic chipId)
             (dtostrf (s.cTemp + adj.temperature_adjustment) 4 2),
           Event.publish (humidity_topic chipId)
             (dtostrf (s.humidity + adj.humidity_adjustment) 4 2)]
         else []) ++
        Event.baroHealthCheck ::
          (if s.baroOK = true then
            [Event.publish (pressure_topic chipId)
               (dtostrf (s.pressure + adj.pressure_adjustment) 6 2),
             Event.publish (temperature_2_topic chipId)
               (dtostrf (s.temperature + adj.temperature_2_adjustment) 4 2)]
           else [Event.baroReinit]) ∧
    List.Sublist (publishedTopics (reportCycle adj chipId s msg).1)
      [temperature_topic chipId, humidity_topic chipId, pressure_topic chipId,
        temperature_2_topic chipId] := by
  constructor
  · by_cases hds : s.dhtStatus = 0 <;> cases hb : s.baroOK <;>
      simp [reportCycle, dhtPart, baroPart, hds, hb]
  · by_cases hds : s.dhtStatus = 0 <;> cases hb : s.baroOK
    · have ht : publishedTopics (reportCycle adj chipId s msg).1 =
          [temperature_topic chipId, humidity_topic chipId] := by
        simp [publishedTopics, reportCycle, dhtPart, baroPart, hds, hb]
      rw [ht]
      have hsplit : [temperature_topic chipId, humidity_topic chipId, pressure_topic chipId,
          temperature_2_topic chipId] =
          [temperature_topic chipId, humidity_topic chipId] ++
            [pressure_topic chipId, temperature_2_topic chipId] := rfl
      rw [hsplit]
      exact List.sublist_append_left _ _
    · have ht : publishedTopics (reportCycle adj chipId s msg).1 =
          [temperature_topic chipId, humidity_topic chipId, pressure_topic chipId,
            temperature_2_topic chipId] := by
        simp [publishedTopics, reportCycle, dhtPart, baroPart, hds, hb]
      rw [ht]
    · have ht : publishedTopics (reportCycle adj chipId s msg).1 = [] := by
        simp [publishedTopics, reportCycle, dhtPart, baroPart, hds, hb]
      rw [ht]
      exact List.nil_sublist _
    · have ht : publishedTopics (reportCycle adj chipId s msg).1 =
          [pressure_topic chipId, temperature_2_topic chipId] := by
        simp [publishedTopics, reportCycle, dhtPart, baroPart, hds, hb]
      rw [ht]
      have hsplit : [temperature_topic chipId, humidity_topic chipId, pressure_topic chipId,
          temperature_2_topic chipId] =
          [temperature_topic chipId, humidity_topic chipId] ++
            [pressure_topic chipId, temperature_2_topic chipId] := rfl
      rw [hsplit]
      exact List.sublist_append_right _ _

/-- C5: while the client reports disconnected, no sensor read and no
sensor-channel publish happens — the trace up to the successful connect
attempt is failed connect attempts only — and immediately after the
successful connect the client publishes the startup announcement to the
fixed `events` topic and subscribes to the command topic, before the MQTT
service call and any reporting-timer logic. -/
theorem c5_reconnect_gates_reporting (adj : Adjustments) (chipId k : Nat)
    (rest : List Bool) (st : LoopState) (t : Nat) (s : SensorInputs)
    (hc : st.connected = false) :
    (loop adj chipId st (List.replicate k false ++ true :: rest) t s).1 =
      List.replicate k (Event.connectAttempt false) ++
        Event.connectAttempt true ::
        Event.publish "events" (startup_announcement chipId) ::
        Event.subscribe (command_topic chipId) ::
        Event.poll ::
        (if timerDue t st.next_report_time then
          (reportCycle adj chipId s (startup_announcement chipId)).1
         else []) := by
  cases htd : timerDue t st.next_report_time <;>
    simp [loop, hc, reconnect_replicate, htd]

/-- Witness for C5: one failed connect attempt, then success, with the timer
due. -/
theorem c5_witness :
    sampleState.connected = false ∧
    (loop sourceAdjustments 41394 sampleState (List.replicate 1 false ++ true :: []) 0
        sampleInputs).1 =
      List.replicate 1 (Event.connectAttempt false) ++
        Event.connectAttempt true ::
        Event.publish "events" (startup_announcement 41394) ::
        Event.subscribe (command_topic 41394) ::
        Event.poll ::
        (if timerDue 0 sampleState.next_report_time then
          (reportCycle sourceAdjustments 41394 sampleInputs (startup_announcement 41394)).1
         else []) :=
  ⟨rfl, c5_reconnect_gates_reporting sourceAdjustments 41394 1 [] sampleState 0 sampleInputs rfl⟩

/-- C9: when the timer fires, the next due time is set to
`(time_now + interval) mod 2^32` whatever the sensors do; in a cycle where
the DHT12 read fails and the barometer is unhealthy, the trace holds no
publish at all and the next report is still scheduled one full interval after
the fire time. -/
theorem c9_timer_advances_unconditionally (adj : Adjustments) (chipId : Nat)
    (st : LoopState) (t : Nat) (s : SensorInputs) (hc : st.connected = true)
    (hd : timerDue t st.next_report_time = true)
    (hf : s.dhtStatus ≠ 0) (hb : s.baroOK = false) :
    (∀ s2 : SensorInputs,
      (loop adj chipId st [] t s2).2.next_report_time =
        (t + reporting_interval * 1000) % W) ∧
    (loop adj chipId st [] t s).1 =
      [Event.poll, Event.sensorReadDHT, Event.baroHealthCheck, Event.baroReinit] := by
  constructor
  · intro s2
    simp [loop, hc, hd, nextDueAfterFire]
  · simp [loop, hc, hd, reportCycle, dhtPart, baroPart, hf, hb]

/-- Witness for C9: connected state, timer due at t = 0, both sensors
failing. -/
theorem c9_witness :
    (connectedState.connected = true ∧ timerDue 0 connectedState.next_report_time = true ∧
      sampleFailInputs.dhtStatus ≠ 0 ∧ sampleFailInputs.baroOK = false) ∧
    (loop sourceAdjustments 41394 connectedState [] 0 sampleFailInputs).1 =
      [Event.poll, Event.sensorReadDHT, Event.baroHealthCheck, Event.baroReinit] :=
  ⟨⟨rfl, by decide, by decide, rfl⟩,
   (c9_timer_advances_unconditionally sourceAdjustments 41394 connectedState 0 sampleFailInputs
      rfl (by decide) (by decide) rfl).2⟩

end HomeSense
